import Mathlib

/-!
Verification of the ssh-connector menu program (src/ssh_connector.py).

The program keeps one in-memory configuration: a username and an
insertion-ordered mapping from group name to an ordered list of hostnames
(a Python dict of str to list of str).  We embed the dict as an
association list with Python dict semantics: assignment to an existing
key updates the value in place, assignment to a fresh key appends, del
and pop remove the entry.  Persistence goes through JSON values; a file
is modelled as Option (Option Json): none means the path does not exist,
some none means the bytes do not parse, some (some j) means the file
parses to the value j.  Dynamic (untyped) state that can arise from
import_config is modelled with Json-valued fields (DState); the menu
state machine, which in normal operation only ever sees well-typed
state, is modelled over the typed Config.  Python exceptions that the
script can raise or catch are the constructors of PyErr.
-/

/-- Python exceptions relevant to this script. -/
inductive PyErr where
  | keyError
  | attributeError
  | keyboardInterrupt
deriving DecidableEq, Repr

/-- JSON values, as produced by json.load. -/
inductive Json where
  | null
  | bool (b : Bool)
  | num (n : Int)
  | str (s : String)
  | arr (xs : List Json)
  | obj (kvs : List (String × Json))

/-- The typed in-memory configuration: self.username and
self.server_groups as a dict from group name to hostname list. -/
structure Config where
  username : String
  server_groups : List (String × List String)
deriving DecidableEq, Repr

/-- Dynamically typed state: after import_config, self.username and
self.server_groups can hold arbitrary JSON values. -/
structure DState where
  username : Json
  server_groups : Json

/-- Ordered-dict lookup: first entry with the given key (Python dicts
have unique keys, so first = only). -/
def aget {α : Type} (k : String) : List (String × α) → Option α
  | [] => none
  | (k', v) :: rest => if k' = k then some v else aget k rest

/-- Python dict assignment d[k] = v: update in place when the key is
present, append otherwise. -/
def dictSet {α : Type} (k : String) (v : α) (l : List (String × α)) : List (String × α) :=
  if (aget k l).isSome then l.map (fun p => if p.1 = k then (k, v) else p)
  else l ++ [(k, v)]

/-- Python del d[k] and the removal part of d.pop(k). -/
def dictDel {α : Type} (k : String) : List (String × α) → List (String × α)
  | [] => []
  | (k', v) :: rest => if k' = k then dictDel k rest else (k', v) :: dictDel k rest

/-- Python subscript d[k], raising KeyError when the key is missing. -/
def getItem {α : Type} (l : List (String × α)) (k : String) : Except PyErr α :=
  match aget k l with
  | none => Except.error PyErr.keyError
  | some v => Except.ok v

/-- get_default_username: os.environ.get of USER, or-else USERNAME,
or-else the literal user.  Python or treats the empty string as falsy. -/
def get_default_username (user username_var : Option String) : String :=
  match user with
  | some s => if s = "" then
      (match username_var with
       | some t => if t = "" then "user" else t
       | none => "user")
    else s
  | none =>
    match username_var with
    | some t => if t = "" then "user" else t
    | none => "user"

/-- save_config and export_config serialize the state as the JSON object
with keys username and server_groups, in that order. -/
def save_json (st : DState) : Json :=
  Json.obj [("username", st.username), ("server_groups", st.server_groups)]

/-- Encoding of a typed group mapping as the JSON object json.dump writes. -/
def encGroups (gs : List (String × List String)) : Json :=
  Json.obj (gs.map (fun p => (p.1, Json.arr (p.2.map Json.str))))

/-- The JSON state corresponding to a typed configuration. -/
def Config.toDyn (c : Config) : DState :=
  ⟨Json.str c.username, encGroups c.server_groups⟩

/-- The three built-in groups of create_default_config. -/
def default_server_groups : List (String × List String) :=
  [("Development", ["dev-server-1.example.com", "dev-server-2.example.com"]),
   ("Production", ["prod-server-1.example.com", "prod-server-2.example.com"]),
   ("Database", ["db-server-1.example.com", "db-server-2.example.com"])]

/-- create_default_config: replace self.server_groups with the built-in
groups (keeping the current username) and persist via save_config.
Returns the new state and the JSON written to the config path. -/
def create_default_config (username : Json) : DState × Json :=
  let st : DState := ⟨username, encGroups default_server_groups⟩
  (st, save_json st)

/-- Python config.get(k, default): raises AttributeError when the parsed
value is not a dict. -/
def pyGet (j : Json) (k : String) (dflt : Json) : Except PyErr Json :=
  match j with
  | Json.obj kvs => Except.ok ((aget k kvs).getD dflt)
  | _ => Except.error PyErr.attributeError

/-- load_config: on a missing file or a parse failure (the caught
JSONDecodeError or IOError) fall back to create_default_config, which
persists the defaults; otherwise read username and server_groups with
dict.get, defaulting to the current username and the empty dict.  The
result pairs the new state with the file contents after the call. -/
def load_config (st : DState) (file : Option (Option Json)) :
    Except PyErr (DState × Option (Option Json)) :=
  match file with
  | none =>
    let p := create_default_config st.username
    Except.ok (p.1, some (some p.2))
  | some none =>
    let p := create_default_config st.username
    Except.ok (p.1, some (some p.2))
  | some (some j) =>
    match pyGet j "username" st.username with
    | Except.error e => Except.error e
    | Except.ok u =>
      match pyGet j "server_groups" (Json.obj []) with
      | Except.error e => Except.error e
      | Except.ok sg => Except.ok (⟨u, sg⟩, some (some j))

/-- Result of import_config. -/
inductive ImportOutcome where
  | fileNotFound
  | parseFailed
  | invalidFormat
  | success
deriving DecidableEq, Repr

/-- import_config: the file at the entered path is modelled like the
config file.  The code requires isinstance(config, dict) and the key
server_groups; on success it replaces the state (username defaulting to
the current one) and persists via save_config.  The middle component is
what gets written to the default config path (none = nothing written). -/
def import_config (st : DState) (file : Option (Option Json)) :
    DState × Option Json × ImportOutcome :=
  match file with
  | none => (st, none, ImportOutcome.fileNotFound)
  | some none => (st, none, ImportOutcome.parseFailed)
  | some (some j) =>
    match j with
    | Json.obj kvs =>
      match aget "server_groups" kvs with
      | none => (st, none, ImportOutcome.invalidFormat)
      | some sg =>
        let st1 : DState := ⟨(aget "username" kvs).getD st.username, sg⟩
        (st1, some (save_json st1), ImportOutcome.success)
    | _ => (st, none, ImportOutcome.invalidFormat)

/-- Decode a JSON array of strings back into a hostname list. -/
def decHosts : List Json → Option (List String)
  | [] => some []
  | Json.str s :: rest => (decHosts rest).map (fun l => s :: l)
  | _ :: _ => none

/-- Decode a JSON object back into a typed group mapping. -/
def decGroups : List (String × Json) → Option (List (String × List String))
  | [] => some []
  | (k, Json.arr hs) :: rest =>
    match decHosts hs, decGroups rest with
    | some l, some g => some ((k, l) :: g)
    | _, _ => none
  | _ :: _ => none

/-- Read a typed configuration back out of a dynamic state. -/
def DState.toConfig (st : DState) : Option Config :=
  match st.username, st.server_groups with
  | Json.str u, Json.obj kvs => (decGroups kvs).map (fun gs => ⟨u, gs⟩)
  | _, _ => none

/-- The spec data-model invariant: group names unique, hostnames unique
within each group. -/
def Config.Valid (c : Config) : Prop :=
  (c.server_groups.map Prod.fst).Nodup ∧ ∀ p ∈ c.server_groups, (p.2 : List String).Nodup

instance (c : Config) : Decidable c.Valid := by
  unfold Config.Valid; infer_instance

/-- Outcome reported by a registry mutation (which message was printed). -/
inductive OpOutcome where
  | success
  | emptyName
  | duplicateGroup
  | emptyHost
  | duplicateHost
  | cancelled
deriving DecidableEq, Repr

/-- Result of a registry mutation: resulting mapping, whether
save_config ran, and which message was printed. -/
structure OpRes where
  groups : List (String × List String)
  saved : Bool
  outcome : OpOutcome
deriving DecidableEq, Repr

/-- add_server_group: reject a blank name, then a duplicate name, else
insert an empty list under the name and persist. -/
def add_server_group (gs : List (String × List String)) (group_name : String) : OpRes :=
  if group_name = "" then ⟨gs, false, OpOutcome.emptyName⟩
  else if (aget group_name gs).isSome then ⟨gs, false, OpOutcome.duplicateGroup⟩
  else ⟨dictSet group_name [] gs, true, OpOutcome.success⟩

/-- add_server: reject a blank hostname first; then subscript the dict
(KeyError when the group is missing); reject a hostname already in the
list; else append and persist. -/
def add_server (gs : List (String × List String)) (group_name server : String) :
    Except PyErr OpRes :=
  if server = "" then Except.ok ⟨gs, false, OpOutcome.emptyHost⟩
  else match aget group_name gs with
  | none => Except.error PyErr.keyError
  | some hosts =>
    if server ∈ hosts then Except.ok ⟨gs, false, OpOutcome.duplicateHost⟩
    else Except.ok ⟨dictSet group_name (hosts ++ [server]) gs, true, OpOutcome.success⟩

/-- rename_server_group: reject a blank new name, then an existing new
name; then pop the old key (KeyError when missing) and assign its list
to the new key, which appends at the end, and persist. -/
def rename_server_group (gs : List (String × List String)) (group_name new_name : String) :
    Except PyErr OpRes :=
  if new_name = "" then Except.ok ⟨gs, false, OpOutcome.emptyName⟩
  else if (aget new_name gs).isSome then Except.ok ⟨gs, false, OpOutcome.duplicateGroup⟩
  else match aget group_name gs with
  | none => Except.error PyErr.keyError
  | some hosts =>
    Except.ok ⟨dictSet new_name hosts (dictDel group_name gs), true, OpOutcome.success⟩

/-- Python str.lower applied character by character (the script only
compares the result against the letter y). -/
def strLower (s : String) : String := String.mk (s.data.map Char.toLower)

/-- delete_server_group: any confirmation whose lower-casing is not the
single letter y cancels; otherwise del the key (KeyError when missing)
and persist. -/
def delete_server_group (gs : List (String × List String)) (group_name confirm : String) :
    Except PyErr OpRes :=
  if strLower confirm ≠ "y" then Except.ok ⟨gs, false, OpOutcome.cancelled⟩
  else match aget group_name gs with
  | none => Except.error PyErr.keyError
  | some _ => Except.ok ⟨dictDel group_name gs, true, OpOutcome.success⟩

/-!
The navigation state machine.  Each line the user types is one Inp:
choice n when the line parses as the integer n, text s for any other
line, interrupt for Ctrl-C at a prompt.  Every screen loop takes fuel
(while True has no intrinsic bound); running out of fuel, or reaching
the import screen (whose dynamic state is modelled separately by
import_config), yields the bookkeeping outcome stop.  Screens rendered
and ssh invocations are recorded in a trace.  Persistence side effects
of the mutations are not recorded here (save_config only writes the
state that the trace already determines).
-/

/-- One line of user input. -/
inductive Inp where
  | choice (n : Nat)
  | text (s : String)
  | interrupt
deriving DecidableEq, Repr

/-- Observable events: screens rendered and ssh sessions launched. -/
inductive Ev where
  | mainScreen
  | groupsScreen (names : List String)
  | detailScreen (group : String) (hosts : List String)
  | manageScreen (group : String)
  | removeScreen (group : String) (hosts : List String)
  | connectEv (username host : String)
  | helpScreen
deriving DecidableEq, Repr

/-- How a screen run ends: normal return, sys.exit(0), an escaping
exception, or the bookkeeping outcome stop (out of fuel, out of input,
or the unmodelled import screen). -/
inductive Out where
  | done (st : Config) (rest : List Inp)
  | exited
  | err (e : PyErr)
  | stop
deriving DecidableEq, Repr

/-- A run of a screen: the events it rendered and how it ended. -/
structure Run where
  trace : List Ev
  out : Out
deriving DecidableEq, Repr

/-- Result of consuming input at one prompt. -/
inductive ReadRes (α : Type) where
  | ok (a : α) (rest : List Inp)
  | intr
  | eof

/-- input() at a free-text prompt: Ctrl-C raises KeyboardInterrupt; a
numeric line is just its decimal text. -/
def read_line : List Inp → ReadRes String
  | [] => ReadRes.eof
  | Inp.interrupt :: _ => ReadRes.intr
  | Inp.text s :: rest => ReadRes.ok s rest
  | Inp.choice n :: rest => ReadRes.ok (toString n) rest

/-- input() at a press-Enter-to-continue pause: consumes one line. -/
def pause : List Inp → ReadRes Unit
  | [] => ReadRes.eof
  | Inp.interrupt :: _ => ReadRes.intr
  | _ :: rest => ReadRes.ok () rest

/-- display_menu: read lines until one parses as an integer inside
[1, numOpts]; a non-numeric line (ValueError) or an out-of-range number
prints a message and consumes one more pause line before re-prompting.
Returns the zero-based index. -/
def display_menu (numOpts : Nat) : List Inp → ReadRes Nat
  | [] => ReadRes.eof
  | Inp.interrupt :: _ => ReadRes.intr
  | Inp.text _ :: rest =>
    match rest with
    | [] => ReadRes.eof
    | Inp.interrupt :: _ => ReadRes.intr
    | _ :: rest2 => display_menu numOpts rest2
  | Inp.choice n :: rest =>
    if 1 ≤ n ∧ n ≤ numOpts then ReadRes.ok (n - 1) rest
    else match rest with
    | [] => ReadRes.eof
    | Inp.interrupt :: _ => ReadRes.intr
    | _ :: rest2 => display_menu numOpts rest2

/-- Continue a screen after a prompt: propagate KeyboardInterrupt and
end-of-script. -/
def ReadRes.step {α : Type} : ReadRes α → (α → List Inp → Run) → Run
  | ReadRes.eof, _ => ⟨[], Out.stop⟩
  | ReadRes.intr, _ => ⟨[], Out.err PyErr.keyboardInterrupt⟩
  | ReadRes.ok a rest, f => f a rest

/-- Continue a screen after an operation that can raise: an uncaught
exception aborts the screen. -/
def exStep {α : Type} : Except PyErr α → (α → Run) → Run
  | Except.error e, _ => ⟨[], Out.err e⟩
  | Except.ok a, f => f a

/-- Record a rendered screen in front of a run. -/
def Run.push (e : Ev) (r : Run) : Run := ⟨e :: r.trace, r.out⟩

/-- Sequence a sub-screen with the rest of the calling loop. -/
def Run.seq (r : Run) (f : Config → List Inp → Run) : Run :=
  match r.out with
  | Out.done st rest => ⟨r.trace ++ (f st rest).trace, (f st rest).out⟩
  | _ => r

/-- manage_server_group: the manage screen loop.  Options are add
server, remove server, rename, delete, back.  Rename returns to the
caller whatever its outcome; a confirmed delete returns; a cancelled
delete and the other actions loop. -/
def manage_server_group : Nat → Config → String → List Inp → Run
  | 0, _, _, _ => ⟨[], Out.stop⟩
  | fuel+1, st, g, inps =>
    Run.push (Ev.manageScreen g) (
      (display_menu 5 inps).step fun i rest =>
        if i = 0 then
          (read_line rest).step fun s rest1 =>
            exStep (add_server st.server_groups g s) fun res =>
              (pause rest1).step fun _ rest2 =>
                manage_server_group fuel { st with server_groups := res.groups } g rest2
        else if i = 1 then
          exStep (getItem st.server_groups g) fun hosts =>
            if hosts.isEmpty then
              (pause rest).step fun _ rest1 => manage_server_group fuel st g rest1
            else
              Run.push (Ev.removeScreen g hosts) (
                (display_menu (hosts.length + 1) rest).step fun j rest1 =>
                  if j < hosts.length then
                    let srv := hosts.getD j ""
                    let gs2 := dictSet g (hosts.erase srv) st.server_groups
                    (pause rest1).step fun _ rest2 =>
                      manage_server_group fuel { st with server_groups := gs2 } g rest2
                  else manage_server_group fuel st g rest1)
        else if i = 2 then
          (read_line rest).step fun s rest1 =>
            exStep (rename_server_group st.server_groups g s) fun res =>
              (pause rest1).step fun _ rest2 =>
                ⟨[], Out.done { st with server_groups := res.groups } rest2⟩
        else if i = 3 then
          (read_line rest).step fun s rest1 =>
            exStep (delete_server_group st.server_groups g s) fun res =>
              (pause rest1).step fun _ rest2 =>
                if res.saved then ⟨[], Out.done { st with server_groups := res.groups } rest2⟩
                else manage_server_group fuel st g rest2
        else ⟨[], Out.done st rest⟩)

/-- server_group_menu: the group-detail screen loop.  The host list is
read with dict.get defaulting to the empty list; options are the hosts,
then manage group, then back.  After an ssh session or a returned
manage screen the loop re-renders for the same group name. -/
def server_group_menu : Nat → Config → String → List Inp → Run
  | 0, _, _, _ => ⟨[], Out.stop⟩
  | fuel+1, st, g, inps =>
    let servers := (aget g st.server_groups).getD []
    Run.push (Ev.detailScreen g servers) (
      (display_menu (servers.length + 2) inps).step fun i rest =>
        if i < servers.length then
          Run.push (Ev.connectEv st.username (servers.getD i ""))
            ((pause rest).step fun _ rest1 => server_group_menu fuel st g rest1)
        else if i = servers.length then
          (manage_server_group fuel st g rest).seq fun st1 rest1 =>
            server_group_menu fuel st1 g rest1
        else ⟨[], Out.done st rest⟩)

/-- server_groups_menu: the groups-list screen loop.  Options are the
group names, then add new group, then back. -/
def server_groups_menu : Nat → Config → List Inp → Run
  | 0, _, _ => ⟨[], Out.stop⟩
  | fuel+1, st, inps =>
    let names := st.server_groups.map Prod.fst
    Run.push (Ev.groupsScreen names) (
      (display_menu (names.length + 2) inps).step fun i rest =>
        if i < names.length then
          (server_group_menu fuel st (names.getD i "") rest).seq fun st1 rest1 =>
            server_groups_menu fuel st1 rest1
        else if i = names.length then
          (read_line rest).step fun s rest1 =>
            let res := add_server_group st.server_groups s
            (pause rest1).step fun _ rest2 =>
              server_groups_menu fuel { st with server_groups := res.groups } rest2
        else ⟨[], Out.done st rest⟩)

/-- main_menu: server groups, change username, import, export, help,
exit.  The import screen mutates dynamically typed state and is
modelled separately by import_config, so it yields stop here; export
reads a path and writes without touching the state; exit is
sys.exit(0). -/
def main_menu : Nat → Config → List Inp → Run
  | 0, _, _ => ⟨[], Out.stop⟩
  | fuel+1, st, inps =>
    Run.push Ev.mainScreen (
      (display_menu 6 inps).step fun i rest =>
        if i = 0 then
          (server_groups_menu fuel st rest).seq fun st1 rest1 => main_menu fuel st1 rest1
        else if i = 1 then
          (read_line rest).step fun s rest1 =>
            let st1 := if s = "" then st else { st with username := s }
            (pause rest1).step fun _ rest2 => main_menu fuel st1 rest2
        else if i = 2 then ⟨[], Out.stop⟩
        else if i = 3 then
          (read_line rest).step fun _ rest1 =>
            (pause rest1).step fun _ rest2 => main_menu fuel st rest2
        else if i = 4 then
          Run.push Ev.helpScreen ((pause rest).step fun _ rest1 => main_menu fuel st rest1)
        else ⟨[], Out.exited⟩)

/-- The source function main: run the menu; a KeyboardInterrupt
reaching the top level is caught and becomes a clean exit; nothing else
is caught.  (Named main_fun because Lean reserves the name main.) -/
def main_fun (fuel : Nat) (st : Config) (inps : List Inp) : Run :=
  let r := main_menu fuel st inps
  match r.out with
  | Out.err PyErr.keyboardInterrupt => ⟨r.trace, Out.exited⟩
  | _ => r

/-!
Helper lemmas about the ordered-dict embedding and the JSON codec.
-/

theorem aget_dictDel_self {α : Type} (k : String) (l : List (String × α)) :
    aget k (dictDel k l) = none := by
  induction l with
  | nil => rfl
  | cons p rest ih =>
    obtain ⟨k', v⟩ := p
    by_cases h : k' = k <;> simp [dictDel, h, aget, ih]

theorem aget_dictDel_of_none {α : Type} (k k2 : String) (l : List (String × α))
    (h : aget k l = none) : aget k (dictDel k2 l) = none := by
  induction l with
  | nil => rfl
  | cons p rest ih =>
    obtain ⟨k', v⟩ := p
    by_cases h2 : k' = k
    · simp [aget, h2] at h
    · by_cases h3 : k' = k2 <;>
        simp_all [dictDel, aget, h2, h3]

theorem aget_append_of_none {α : Type} (k : String) (l1 l2 : List (String × α))
    (h : aget k l1 = none) : aget k (l1 ++ l2) = aget k l2 := by
  induction l1 with
  | nil => rfl
  | cons p rest ih =>
    obtain ⟨k', v⟩ := p
    by_cases h2 : k' = k
    · simp [aget, h2] at h
    · simp_all [aget, h2]

theorem dictSet_of_none {α : Type} (k : String) (v : α) (l : List (String × α))
    (h : aget k l = none) : dictSet k v l = l ++ [(k, v)] := by
  simp [dictSet, h]

theorem decHosts_enc (hs : List String) : decHosts (hs.map Json.str) = some hs := by
  induction hs with
  | nil => rfl
  | cons h t ih => simp [decHosts, ih]

theorem decGroups_enc (gs : List (String × List String)) :
    decGroups (gs.map (fun p => (p.1, Json.arr (p.2.map Json.str)))) = some gs := by
  induction gs with
  | nil => rfl
  | cons p t ih =>
    obtain ⟨k, hs⟩ := p
    simp [decGroups, decHosts_enc, ih]

/-- display_menu accepts the first line when it is an in-range integer. -/
theorem display_menu_valid (numOpts n : Nat) (rest : List Inp)
    (h1 : 1 ≤ n) (h2 : n ≤ numOpts) :
    display_menu numOpts (Inp.choice n :: rest) = ReadRes.ok (n - 1) rest := by
  unfold display_menu
  rw [if_pos ⟨h1, h2⟩]

theorem ReadRes.step_ok {α : Type} (a : α) (rest : List Inp) (f : α → List Inp → Run) :
    (ReadRes.ok a rest).step f = f a rest := rfl

theorem Run.push_trace (e : Ev) (r : Run) : (Run.push e r).trace = e :: r.trace := rfl

theorem Run.seq_done (tr : List Ev) (st : Config) (rest : List Inp)
    (f : Config → List Inp → Run) :
    Run.seq ⟨tr, Out.done st rest⟩ f = ⟨tr ++ (f st rest).trace, (f st rest).out⟩ := rfl

/-!
Claim theorems.
-/

/-- C1: for every valid Configuration (username plus ordered group
mapping with ordered host lists), saving it with save_config and then
loading from the same path with load_config yields an equal
Configuration, with the order of groups and of hostnames preserved; the
file is left holding exactly the saved document. -/
theorem c1_save_load_round_trip (c : Config) (st : DState) (h : c.Valid) :
    load_config st (some (some (save_json c.toDyn))) =
      Except.ok (c.toDyn, some (some (save_json c.toDyn)))
    ∧ DState.toConfig c.toDyn = some c := by
  constructor
  · rfl
  · simp [DState.toConfig, Config.toDyn, encGroups, decGroups_enc]

/-- C1 witness: the round trip evaluated on a concrete two-host
configuration. -/
theorem c1_save_load_round_trip_witness :
    (Config.mk "alice" [("G", ["h1", "h2"])]).Valid ∧
    (load_config ⟨Json.str "other", Json.obj []⟩
        (some (some (save_json (Config.mk "alice" [("G", ["h1", "h2"])]).toDyn))) =
      Except.ok ((Config.mk "alice" [("G", ["h1", "h2"])]).toDyn,
        some (some (save_json (Config.mk "alice" [("G", ["h1", "h2"])]).toDyn)))
    ∧ DState.toConfig (Config.mk "alice" [("G", ["h1", "h2"])]).toDyn =
        some (Config.mk "alice" [("G", ["h1", "h2"])])) :=
  ⟨by decide, c1_save_load_round_trip (Config.mk "alice" [("G", ["h1", "h2"])])
      ⟨Json.str "other", Json.obj []⟩ (by decide)⟩

/-- C8: loading from a nonexistent path synthesizes exactly the three
built-in groups with exactly their two example hostnames each, keeps the
current username, and persists that same configuration to the path
before returning. -/
theorem c8_default_synthesis (st : DState) :
    load_config st none =
      Except.ok (⟨st.username, encGroups default_server_groups⟩,
        some (some (save_json ⟨st.username, encGroups default_server_groups⟩)))
    ∧ default_server_groups =
      [("Development", ["dev-server-1.example.com", "dev-server-2.example.com"]),
       ("Production", ["prod-server-1.example.com", "prod-server-2.example.com"]),
       ("Database", ["db-server-1.example.com", "db-server-2.example.com"])] :=
  ⟨rfl, rfl⟩

/-- C9: when the file exists and parses as an object lacking both keys,
load_config neither fails nor synthesizes defaults: the username stays
the environment-derived default (USER, then USERNAME, then the literal
user) and the group mapping becomes the empty mapping; the file is left
untouched. -/
theorem c9_missing_keys (u1 u2 : Option String) (sg0 : Json) (kvs : List (String × Json))
    (h1 : aget "username" kvs = none) (h2 : aget "server_groups" kvs = none) :
    load_config ⟨Json.str (get_default_username u1 u2), sg0⟩ (some (some (Json.obj kvs))) =
      Except.ok (⟨Json.str (get_default_username u1 u2), Json.obj []⟩,
        some (some (Json.obj kvs))) := by
  simp [load_config, pyGet, h1, h2]

/-- C9 witness: a concrete object with neither key, loaded with USER set. -/
theorem c9_missing_keys_witness :
    aget "username" [("extra", Json.null)] = none ∧
    aget "server_groups" [("extra", Json.null)] = none ∧
    load_config ⟨Json.str (get_default_username (some "alice") none), Json.null⟩
        (some (some (Json.obj [("extra", Json.null)]))) =
      Except.ok (⟨Json.str (get_default_username (some "alice") none), Json.obj []⟩,
        some (some (Json.obj [("extra", Json.null)]))) :=
  ⟨rfl, rfl, c9_missing_keys (some "alice") none Json.null [("extra", Json.null)] rfl rfl⟩

/-- C5: add_server_group on a blank name or an existing name fails with
the corresponding message and leaves the mapping unchanged without
persisting; add_server on a blank hostname or a hostname already in the
group fails likewise, leaving the list unchanged and persisting
nothing. -/
theorem c5_uniqueness_errors (gs : List (String × List String))
    (name group_name server : String) (hosts : List String) :
    (add_server_group gs "" = ⟨gs, false, OpOutcome.emptyName⟩) ∧
    (name ≠ "" → (aget name gs).isSome →
      add_server_group gs name = ⟨gs, false, OpOutcome.duplicateGroup⟩) ∧
    (add_server gs group_name "" = Except.ok ⟨gs, false, OpOutcome.emptyHost⟩) ∧
    (server ≠ "" → aget group_name gs = some hosts → server ∈ hosts →
      add_server gs group_name server = Except.ok ⟨gs, false, OpOutcome.duplicateHost⟩) := by
  refine ⟨rfl, fun hn hd => ?_, rfl, fun hs hg hm => ?_⟩
  · simp [add_server_group, hn, hd]
  · simp [add_server, hs, hg, hm]

/-- C5 witness: duplicate group and duplicate host on a concrete state. -/
theorem c5_uniqueness_errors_witness :
    add_server_group [("G", ["h"])] "G" = ⟨[("G", ["h"])], false, OpOutcome.duplicateGroup⟩ ∧
    add_server [("G", ["h"])] "G" "h" = Except.ok ⟨[("G", ["h"])], false, OpOutcome.duplicateHost⟩ :=
  ⟨(c5_uniqueness_errors [("G", ["h"])] "G" "G" "h" ["h"]).2.1 (by decide) (by decide),
   (c5_uniqueness_errors [("G", ["h"])] "G" "G" "h" ["h"]).2.2.2 (by decide) (by decide)
     (by decide)⟩

/-- C6: renaming group a to an existing name b fails and leaves the whole
mapping (so both a with its hosts and b) unchanged; renaming a to a
blank name fails with no mutation; renaming a to an unused name c
removes key a and binds c to the identical ordered host list. -/
theorem c6_rename_safety (gs : List (String × List String)) (a b c : String)
    (hostsA : List String) (ha : aget a gs = some hostsA) :
    (rename_server_group gs a "" = Except.ok ⟨gs, false, OpOutcome.emptyName⟩) ∧
    (b ≠ "" → (aget b gs).isSome →
      rename_server_group gs a b = Except.ok ⟨gs, false, OpOutcome.duplicateGroup⟩) ∧
    (c ≠ "" → aget c gs = none →
      rename_server_group gs a c =
        Except.ok ⟨dictDel a gs ++ [(c, hostsA)], true, OpOutcome.success⟩ ∧
      aget a (dictDel a gs ++ [(c, hostsA)]) = none ∧
      aget c (dictDel a gs ++ [(c, hostsA)]) = some hostsA) := by
  have hac : ∀ (hc : aget c gs = none), ¬a = c := fun hc h => by rw [h, hc] at ha; cases ha
  refine ⟨rfl, fun hb hd => ?_, fun hc hn => ⟨?_, ?_, ?_⟩⟩
  · simp [rename_server_group, hb, hd]
  · have hset : dictSet c hostsA (dictDel a gs) = dictDel a gs ++ [(c, hostsA)] :=
      dictSet_of_none _ _ _ (aget_dictDel_of_none _ _ _ hn)
    simp [rename_server_group, hc, hn, ha, hset]
  · rw [aget_append_of_none _ _ _ (aget_dictDel_self a gs)]
    have hca : ¬c = a := fun h => hac hn h.symm
    simp [aget, hca]
  · rw [aget_append_of_none _ _ _ (aget_dictDel_of_none _ _ _ hn)]
    simp [aget]

/-- C6 witness: both rename outcomes on a concrete mapping. -/
theorem c6_rename_safety_witness :
    rename_server_group [("A", ["h1", "h2"]), ("B", ["x"])] "A" "B" =
      Except.ok ⟨[("A", ["h1", "h2"]), ("B", ["x"])], false, OpOutcome.duplicateGroup⟩ ∧
    rename_server_group [("A", ["h1", "h2"]), ("B", ["x"])] "A" "C" =
      Except.ok ⟨[("B", ["x"]), ("C", ["h1", "h2"])], true, OpOutcome.success⟩ :=
  ⟨(c6_rename_safety [("A", ["h1", "h2"]), ("B", ["x"])] "A" "B" "C" ["h1", "h2"]
      (by decide)).2.1 (by decide) (by decide),
   ((c6_rename_safety [("A", ["h1", "h2"]), ("B", ["x"])] "A" "B" "C" ["h1", "h2"]
      (by decide)).2.2 (by decide) (by decide)).1⟩

/-- C7: for every confirmation string, delete_server_group removes the
group (persisting) exactly when the lower-cased input is the single
letter y, and otherwise leaves the mapping completely unchanged. -/
theorem c7_deletion_confirmation (gs : List (String × List String))
    (group_name confirm : String) (hosts : List String)
    (h : aget group_name gs = some hosts) :
    delete_server_group gs group_name confirm =
      if strLower confirm = "y" then
        Except.ok ⟨dictDel group_name gs, true, OpOutcome.success⟩
      else Except.ok ⟨gs, false, OpOutcome.cancelled⟩ := by
  by_cases hc : strLower confirm = "y" <;> simp [delete_server_group, hc, h]

/-- C7 witness: upper-case Y deletes, the answer no does not. -/
theorem c7_deletion_confirmation_witness :
    delete_server_group [("A", ["h"])] "A" "Y" = Except.ok ⟨[], true, OpOutcome.success⟩ ∧
    delete_server_group [("A", ["h"])] "A" "no" =
      Except.ok ⟨[("A", ["h"])], false, OpOutcome.cancelled⟩ := by
  have h1 := c7_deletion_confirmation [("A", ["h"])] "A" "Y" ["h"] (by decide)
  have h2 := c7_deletion_confirmation [("A", ["h"])] "A" "no" ["h"] (by decide)
  rw [if_pos (by decide)] at h1
  rw [if_neg (by decide)] at h2
  exact ⟨h1, h2⟩

/-- C4 counterexample: the claim says a file whose server_groups value
is not of mapping type is rejected with a format error leaving state and
file unchanged; but import_config accepts the object whose
server_groups is the empty JSON array, replaces the in-memory state
with it and persists it. -/
theorem c4_import_validation_counterexample :
    import_config ⟨Json.str "u", Json.obj [("G", Json.arr [Json.str "h"])]⟩
        (some (some (Json.obj [("server_groups", Json.arr [])]))) =
      (⟨Json.str "u", Json.arr []⟩, some (save_json ⟨Json.str "u", Json.arr []⟩),
       ImportOutcome.success) ∧
    (⟨Json.str "u", Json.arr []⟩ : DState) ≠
      ⟨Json.str "u", Json.obj [("G", Json.arr [Json.str "h"])]⟩ := by
  refine ⟨rfl, fun h => ?_⟩
  injection h with h1 h2
  exact Json.noConfusion h2

/-- C4 amended: import rejects with a format error exactly the files
whose top-level JSON value is not an object or is an object lacking a
server_groups key (there is no check that the server_groups value is a
mapping); on rejection the in-memory state and the persisted file are
unchanged; on success the state is replaced, taking the server_groups
value as-is and the username falling back to the current one when
absent, and is persisted. -/
theorem c4_import_validation (st : DState) (j : Json) (kvs : List (String × Json))
    (sg : Json) :
    ((∀ kvs2, j ≠ Json.obj kvs2) →
      import_config st (some (some j)) = (st, none, ImportOutcome.invalidFormat)) ∧
    (j = Json.obj kvs → aget "server_groups" kvs = none →
      import_config st (some (some j)) = (st, none, ImportOutcome.invalidFormat)) ∧
    (j = Json.obj kvs → aget "server_groups" kvs = some sg →
      import_config st (some (some j)) =
        (⟨(aget "username" kvs).getD st.username, sg⟩,
         some (save_json ⟨(aget "username" kvs).getD st.username, sg⟩),
         ImportOutcome.success)) := by
  refine ⟨fun hno => ?_, fun hj hsg => ?_, fun hj hsg => ?_⟩
  · cases j with
    | obj kvs2 => exact absurd rfl (hno kvs2)
    | null => rfl
    | bool b => rfl
    | num n => rfl
    | str s => rfl
    | arr xs => rfl
  · subst hj; simp [import_config, hsg]
  · subst hj; simp [import_config, hsg]

/-- C4 witness: a top-level array is rejected with nothing written; an
object with a server_groups mapping and no username is imported with
the username retained. -/
theorem c4_import_validation_witness :
    import_config ⟨Json.str "u", Json.obj []⟩ (some (some (Json.arr []))) =
      (⟨Json.str "u", Json.obj []⟩, none, ImportOutcome.invalidFormat) ∧
    import_config ⟨Json.str "u", Json.obj []⟩
        (some (some (Json.obj [("server_groups", Json.obj [("G", Json.arr [])])]))) =
      (⟨Json.str "u", Json.obj [("G", Json.arr [])]⟩,
       some (save_json ⟨Json.str "u", Json.obj [("G", Json.arr [])]⟩),
       ImportOutcome.success) :=
  ⟨(c4_import_validation ⟨Json.str "u", Json.obj []⟩ (Json.arr []) [] Json.null).1
      (fun kvs2 h => Json.noConfusion h),
   (c4_import_validation ⟨Json.str "u", Json.obj []⟩
      (Json.obj [("server_groups", Json.obj [("G", Json.arr [])])])
      [("server_groups", Json.obj [("G", Json.arr [])])] (Json.obj [("G", Json.arr [])])).2.2
      rfl rfl⟩

/-- C10: the group-detail screen is total in the group name: when the
name is no longer a key of the mapping its loop re-renders with the
defaulting lookup, presenting the empty hostname list plus the two fixed
options, and choosing back returns normally; no lookup error is raised
at this screen. -/
theorem c10_stale_detail_screen_total (fuel : Nat) (st : Config) (g : String)
    (inps rest : List Inp) (h : aget g st.server_groups = none) :
    (server_group_menu (fuel+1) st g inps).trace.take 1 = [Ev.detailScreen g []] ∧
    server_group_menu (fuel+1) st g (Inp.choice 2 :: rest) =
      ⟨[Ev.detailScreen g []], Out.done st rest⟩ := by
  constructor
  · simp [server_group_menu, h, Run.push]
  · simp [server_group_menu, h, Run.push, display_menu_valid, ReadRes.step]

/-- C10 witness: the stale screen evaluated on a concrete state whose
mapping lacks the viewed group. -/
theorem c10_stale_detail_screen_total_witness :
    (server_group_menu 1 ⟨"u", [("B", ["x"])]⟩ "A" []).trace.take 1 =
      [Ev.detailScreen "A" []] ∧
    server_group_menu 1 ⟨"u", [("B", ["x"])]⟩ "A" [Inp.choice 2] =
      ⟨[Ev.detailScreen "A" []], Out.done ⟨"u", [("B", ["x"])]⟩ []⟩ :=
  c10_stale_detail_screen_total 0 ⟨"u", [("B", ["x"])]⟩ "A" [] [] rfl

/-- C2 counterexample: with one group A holding one host, entering manage
and confirming delete does not return control to the server-groups list:
the very next screen presented is the group-detail screen for the
deleted name A (rendered empty), refuting the claim that control
unconditionally returns to the groups list and that no group-detail
screen scoped to the deleted name is presented. -/
theorem c2_pop_to_groups_list_counterexample :
    server_group_menu 5 ⟨"u", [("A", ["h"])]⟩ "A"
        [Inp.choice 2, Inp.choice 4, Inp.text "y", Inp.text "", Inp.choice 2]
      = ⟨[Ev.detailScreen "A" ["h"], Ev.manageScreen "A", Ev.detailScreen "A" []],
         Out.done ⟨"u", []⟩ []⟩ := rfl

/-- C2 amended: after a confirmed delete, and after a rename prompt of a
successful rename, the manage-group loop returns immediately with the
group removed from the mapping, presenting no further screen of its own;
control falls back to the group-detail loop for the old name, which
re-renders it with the defaulting lookup as an empty host list, and the
server-groups list is reached only by a further explicit back. -/
theorem c2_return_after_rename_delete (fuel : Nat) (st : Config) (g s : String)
    (hosts : List String) (rest : List Inp)
    (hg : aget g st.server_groups = some hosts) (hs : s ≠ "")
    (hfree : aget s st.server_groups = none) :
    manage_server_group (fuel+1) st g (Inp.choice 4 :: Inp.text "y" :: Inp.text "" :: rest)
      = ⟨[Ev.manageScreen g], Out.done ⟨st.username, dictDel g st.server_groups⟩ rest⟩ ∧
    manage_server_group (fuel+1) st g (Inp.choice 3 :: Inp.text s :: Inp.text "" :: rest)
      = ⟨[Ev.manageScreen g],
         Out.done ⟨st.username, dictDel g st.server_groups ++ [(s, hosts)]⟩ rest⟩ ∧
    (server_group_menu (fuel+2) st g
        (Inp.choice (hosts.length + 1) :: Inp.choice 4 :: Inp.text "y" :: Inp.text "" ::
          rest)).trace.take 3
      = [Ev.detailScreen g hosts, Ev.manageScreen g, Ev.detailScreen g []] := by
  have hy : strLower "y" = "y" := rfl
  have hset : dictSet s hosts (dictDel g st.server_groups) =
      dictDel g st.server_groups ++ [(s, hosts)] :=
    dictSet_of_none _ _ _ (aget_dictDel_of_none _ _ _ hfree)
  refine ⟨?_, ?_, ?_⟩
  · simp [manage_server_group, display_menu_valid, ReadRes.step, read_line, pause,
      delete_server_group, hy, hg, exStep, Run.push]
  · simp [manage_server_group, display_menu_valid, ReadRes.step, read_line, pause,
      rename_server_group, hs, hfree, hg, hset, exStep, Run.push]
  · simp [server_group_menu, manage_server_group, display_menu_valid, ReadRes.step,
      read_line, pause, delete_server_group, hy, hg, exStep, Run.push, Run.seq,
      aget_dictDel_self]

/-- C2 witness: the amended behaviour evaluated on a concrete one-group
state for both the delete path and the rename path. -/
theorem c2_return_after_rename_delete_witness :
    manage_server_group 1 ⟨"u", [("A", ["h"])]⟩ "A"
        [Inp.choice 4, Inp.text "y", Inp.text ""]
      = ⟨[Ev.manageScreen "A"], Out.done ⟨"u", []⟩ []⟩ ∧
    manage_server_group 1 ⟨"u", [("A", ["h"])]⟩ "A"
        [Inp.choice 3, Inp.text "B", Inp.text ""]
      = ⟨[Ev.manageScreen "A"], Out.done ⟨"u", [("B", ["h"])]⟩ []⟩ ∧
    (server_group_menu 2 ⟨"u", [("A", ["h"])]⟩ "A"
        [Inp.choice 2, Inp.choice 4, Inp.text "y", Inp.text ""]).trace.take 3
      = [Ev.detailScreen "A" ["h"], Ev.manageScreen "A", Ev.detailScreen "A" []] :=
  c2_return_after_rename_delete 0 ⟨"u", [("A", ["h"])]⟩ "A" "B" ["h"] [] rfl
    (by decide) rfl

/-- C3 counterexample: from the default configuration a pure sequence of
user inputs crashes the process with an uncaught KeyError: open the
server groups, enter Development, manage it, delete it confirming with
y, re-enter manage from the stale detail screen and add a nonblank
server; add_server subscripts the dict with the deleted name, the
KeyError has no handler at any screen, and main converts only
KeyboardInterrupt, so the error escapes rather than exiting cleanly. -/
theorem c3_no_crash_counterexample :
    (main_fun 10 ⟨"user", default_server_groups⟩
        [Inp.choice 1, Inp.choice 1, Inp.choice 3, Inp.choice 4, Inp.text "y", Inp.text "",
         Inp.choice 1, Inp.choice 1, Inp.text "x.example.com"]).out
      = Out.err PyErr.keyError := rfl

/-- C3 amended: the only exception converted at the top level is the
user-initiated interrupt: whenever the menu propagates
KeyboardInterrupt, main turns it into a clean exit, and no run of main
ever ends with an escaping KeyboardInterrupt; other errors raised by
mutating operations have no screen-level handler and escape (see the
KeyError run above). -/
theorem c3_top_level_interrupt_only (fuel : Nat) (st : Config) (inps : List Inp) :
    ((main_menu fuel st inps).out = Out.err PyErr.keyboardInterrupt →
      main_fun fuel st inps = ⟨(main_menu fuel st inps).trace, Out.exited⟩) ∧
    (main_fun fuel st inps).out ≠ Out.err PyErr.keyboardInterrupt := by
  constructor
  · intro h
    simp [main_fun, h]
  · simp only [main_fun]
    cases hr : (main_menu fuel st inps).out with
    | done st1 rest1 => simp [hr]
    | exited => simp [hr]
    | err e => cases e <;> simp [hr]
    | stop => simp [hr]

/-- C3 witness: an interrupt at the main prompt is converted into a
clean exit. -/
theorem c3_top_level_interrupt_only_witness :
    main_fun 1 ⟨"u", []⟩ [Inp.interrupt] = ⟨[Ev.mainScreen], Out.exited⟩ ∧
    (main_fun 1 ⟨"u", []⟩ [Inp.interrupt]).out ≠ Out.err PyErr.keyboardInterrupt :=
  ⟨(c3_top_level_interrupt_only 1 ⟨"u", []⟩ [Inp.interrupt]).1 rfl,
   (c3_top_level_interrupt_only 1 ⟨"u", []⟩ [Inp.interrupt]).2⟩
